import Mathlib

/-!
Shallow embedding of a small music-backend service (`main.py`, `schemas.py`):
document values, Python-dict documents, the `serialize_doc` utility, the seed
route, the track/playlist list and create routes, and the
add-track-to-playlist route.  The database helper module (`database.py`) is
not part of the sources; its two operations are modelled from the
specification where noted.
-/

set_option autoImplicit false
set_option maxRecDepth 4096

namespace Music

/-- A JSON/BSON-style value as handled by the service: null, string, integer,
boolean, a BSON `ObjectId` (carried as its 24-character lowercase hex
rendering), or a list of strings (the only list-valued field in this service
is `tracks`, declared `List[str]` in `schemas.py`). -/
inductive Val where
  | null
  | str (s : String)
  | int (n : Int)
  | bool (b : Bool)
  | oid (s : String)
  | list (vs : List String)
  deriving DecidableEq

/-- Python truthiness of a value, as used by `if not doc` and
`if doc.get("_id")`. `None`, `""`, `0`, `False` and `[]` are falsy; an
`ObjectId` instance is always truthy. -/
def Val.truthy : Val → Bool
  | .null => false
  | .str s => !s.isEmpty
  | .int n => n != 0
  | .bool b => b
  | .oid _ => true
  | .list vs => !vs.isEmpty

/-- Python `str()` of a value, used on the `_id` field and on nested
`ObjectId` values.  For an `ObjectId` this is its lowercase hex string; the
other renderings follow Python's conventions (only the `ObjectId` case is
exercised by the routes). -/
def pyStr : Val → String
  | .null => "None"
  | .str s => s
  | .int n => toString n
  | .bool b => if b then "True" else "False"
  | .oid s => s
  | .list _ => "[...]"

/-- A document: a Python `dict` from field names to values, modelled as an
insertion-ordered association list (Python dicts preserve insertion order and
have no duplicate keys). -/
abbrev Doc := List (String × Val)

/-- Python `d.get(k)`: the value at key `k`, or `None`/absent. -/
def dGet : Doc → String → Option Val
  | [], _ => none
  | (k', v) :: rest, k => if k' = k then some v else dGet rest k

/-- Python `d[k] = v`: replace the value in place if the key is present, otherwise
append the new entry at the end (Python dict assignment). -/
def dSet : Doc → String → Val → Doc
  | [], k, v => [(k, v)]
  | (k', v') :: rest, k, v =>
    if k' = k then (k, v) :: rest else (k', v') :: dSet rest k v

/-- Python `d.pop(k)` (the removal part): drop the entry for key `k`. -/
def dErase : Doc → String → Doc
  | [], _ => []
  | (k', v') :: rest, k =>
    if k' = k then dErase rest k else (k', v') :: dErase rest k

/-- Truthiness of `d.get(k)` where an absent key gives `None` (falsy). -/
def truthyOpt : Option Val → Bool
  | none => false
  | some v => v.truthy

/-- The loop `for k, v in list(doc.items()): if isinstance(v, ObjectId):
doc[k] = str(v)`: convert every `ObjectId`-typed value to its string form. -/
def convertOids (d : Doc) : Doc :=
  d.map fun kv =>
    match kv.2 with
    | .oid s => (kv.1, Val.str s)
    | _ => kv

/-- The function `serialize_doc` on a dict argument (`main.py` lines 30-40): an empty dict
is falsy and returned unchanged; otherwise the dict is copied, a truthy `_id`
is popped and re-added as a string under `id`, and remaining `ObjectId`
values are converted to strings. -/
def serialize_doc (d : Doc) : Doc :=
  if d.isEmpty then d
  else if truthyOpt (dGet d "_id") then
    convertOids (dSet (dErase d "_id") "id" (Val.str (pyStr ((dGet d "_id").getD .null))))
  else convertOids d

/-- The function `serialize_doc` including the `None` argument case: `None` is falsy and
returned unchanged. -/
def serialize_opt : Option Doc → Option Doc
  | none => none
  | some d => some (serialize_doc d)

/-! ### ObjectId strings -/

/-- The sixteen hexadecimal digit characters, lowercase. -/
def hexChars : List Char :=
  "0123456789abcdef".data

/-- A character counting as a hex digit for `ObjectId` parsing (either
case). -/
def isHexChar (c : Char) : Bool :=
  c.isDigit || ('a' ≤ c && c ≤ 'f') || ('A' ≤ c && c ≤ 'F')

/-- Predicate `ObjectId.is_valid` on a string: exactly 24 hex characters. -/
def objectIdValid (s : String) : Bool :=
  s.data.length = 24 && s.data.all isHexChar

/-- Lowercasing of a string (via its character list). -/
def lowerStr (s : String) : String :=
  ⟨s.data.map Char.toLower⟩

/-- Parsing `ObjectId(s)` followed by `str(...)`: a valid 24-hex string parses to its
canonical lowercase rendering; anything else raises (modelled as `none`). -/
def parseObjectId (s : String) : Option String :=
  if objectIdValid s then some (lowerStr s) else none

/-- The 24-hex-digit (lowercase, zero-padded) rendering of a natural number,
used to model database-generated `ObjectId`s. -/
def natToHexList : Nat → Nat → List Char
  | 0, _ => []
  | k + 1, n => natToHexList k (n / 16) ++ [hexChars.getD (n % 16) '0']

/-- The 24-character hex string of a fresh identifier counter. -/
def natToHex24 (n : Nat) : String :=
  ⟨natToHexList 24 n⟩

/-! ### Database state and the document access layer -/

/-- The visible database state: the two collections the routes exercise, plus
a counter from which freshly generated identifiers are rendered. -/
structure DB where
  track : List Doc
  playlist : List Doc
  nextId : Nat
  deriving DecidableEq

/-- Modelled from the spec: `database.py` is absent from the sources.  Per
§4.1, `create_document(collection_name, record)` inserts the record into the
named collection and returns the newly assigned identifier as a string; per
§3 the identifier is database-generated and never reused.  The fresh
identifier is rendered from the state's counter; the stored document carries
it under `_id` (as an `ObjectId`), ahead of the record's own fields. -/
def create_document (coll : List Doc) (nextId : Nat) (rec : Doc) :
    String × List Doc × Nat :=
  let oidStr := natToHex24 nextId
  (oidStr, coll ++ [("_id", Val.oid oidStr) :: rec], nextId + 1)

/-- Modelled from the spec: `database.py` is absent from the sources.  Per
§4.1, `get_documents(collection_name, filter, limit)` returns up to `limit`
matching records; the filter is empty at every call site, so this is the
first `limit` records in storage order, and the empty collection yields the
empty sequence. -/
def get_documents (coll : List Doc) (limit : Nat) : List Doc :=
  coll.take limit

/-- Lookup `find_one` by `_id`: the first document in the collection whose
`_id` equals the given identifier, if any. -/
def find_one (coll : List Doc) (oidStr : String) : Option Doc :=
  match coll with
  | [] => none
  | d :: rest => if dGet d "_id" = some (.oid oidStr) then some d
                 else find_one rest oidStr

/-- An HTTP outcome: a 200 response carrying a JSON body (possibly `null`),
or an `HTTPException` with a status code and detail string. -/
inductive Resp where
  | ok (body : Option Doc)
  | err (code : Nat) (detail : String)
  deriving DecidableEq

/-- Holds (`true`) exactly on the `HTTPException` outcomes with status 400. -/
def Resp.is400 : Resp → Bool
  | .err 400 _ => true
  | _ => false

/-! ### The seed route -/

/-- The first fixed demo track of `POST /seed` (`main.py` lines 52-59). -/
def demo1 : Doc :=
  [("title", .str "Dreamscape"),
   ("artist", .str "Nocturne"),
   ("album", .str "Midnight City"),
   ("cover_url", .str "https://images.unsplash.com/photo-1511379938547-c1f69419868d?w=800&q=80&auto=format&fit=crop"),
   ("audio_url", .str "https://cdn.pixabay.com/download/audio/2021/11/16/audio_7b2a3f9b9a.mp3?filename=lofi-study-112191.mp3"),
   ("duration_ms", .int 152000)]

/-- The second fixed demo track (`main.py` lines 60-67). -/
def demo2 : Doc :=
  [("title", .str "Sunset Drive"),
   ("artist", .str "Neon Waves"),
   ("album", .str "Coastal Roads"),
   ("cover_url", .str "https://images.unsplash.com/photo-1511671782779-c97d3d27a1d4?w=800&q=80&auto=format&fit=crop"),
   ("audio_url", .str "https://cdn.pixabay.com/download/audio/2021/12/07/audio_7b5b2f6d8b.mp3?filename=vibes-122242.mp3"),
   ("duration_ms", .int 180000)]

/-- The third fixed demo track (`main.py` lines 68-75). -/
def demo3 : Doc :=
  [("title", .str "Crystal Air"),
   ("artist", .str "Aurora"),
   ("album", .str "Skylight"),
   ("cover_url", .str "https://images.unsplash.com/photo-1515263487990-61b07816b324?w=800&q=80&auto=format&fit=crop"),
   ("audio_url", .str "https://cdn.pixabay.com/download/audio/2022/03/15/audio_7e0b7b5d03.mp3?filename=chill-ambient-10962.mp3"),
   ("duration_ms", .int 210000)]

/-- The three fixed demo tracks of `POST /seed` (`main.py` lines 51-76). -/
def demo_tracks : List Doc :=
  [demo1, demo2, demo3]

/-- Insert each demo track in order through `create_document`
(the `for t in demo_tracks` loop). -/
def insertAll (coll : List Doc) (nextId : Nat) : List Doc → List Doc × Nat
  | [] => (coll, nextId)
  | t :: rest =>
    let r := create_document coll nextId t
    insertAll r.2.1 r.2.2 rest

/-- Route `POST /seed` (`main.py` lines 43-81): 500 when no database is configured;
a report of the existing count with no action when the track collection is
non-empty; otherwise the three demo tracks are inserted and counted. -/
def seed : Option DB → Resp × Option DB
  | none => (.err 500 "Database not configured", none)
  | some db =>
    let count := db.track.length
    if count > 0 then
      (.ok (some [("status", .str "ok"), ("seeded", .bool false),
                  ("existing", .int count)]), some db)
    else
      let r := insertAll db.track db.nextId demo_tracks
      (.ok (some [("status", .str "ok"), ("seeded", .bool true),
                  ("count", .int demo_tracks.length)]),
       some { db with track := r.1, nextId := r.2 })

/-! ### List routes -/

/-- Route `GET /tracks` (`main.py` lines 84-90) with an explicit `limit` query
parameter: up to `limit` stored tracks, each serialized. -/
def list_tracks (db : DB) (limit : Nat) : List Doc :=
  (get_documents db.track limit).map serialize_doc

/-- Route `GET /tracks` with the `limit` parameter omitted (its declared default is
50). -/
def list_tracks_default (db : DB) : List Doc :=
  list_tracks db 50

/-- Route `GET /playlists` (`main.py` lines 126-132) with an explicit `limit`. -/
def list_playlists (db : DB) (limit : Nat) : List Doc :=
  (get_documents db.playlist limit).map serialize_doc

/-- Route `GET /playlists` with the `limit` parameter omitted (default 50). -/
def list_playlists_default (db : DB) : List Doc :=
  list_playlists db 50

/-! ### Track creation -/

/-- The `CreateTrack` request model (`main.py` lines 92-98): a payload of
this type is exactly a body that passed pydantic validation (required
string fields present with correct types, optional fields possibly null).
The `Track` schema of `schemas.py` has the same fields, so
`Track(**payload.model_dump())` carries them over unchanged. -/
structure CreateTrack where
  title : String
  artist : String
  album : Option String
  cover_url : Option String
  audio_url : String
  duration_ms : Option Int
  deriving DecidableEq

/-- An optional string as a JSON value (`None` becomes null). -/
def optStr : Option String → Val
  | none => .null
  | some s => .str s

/-- An optional integer as a JSON value. -/
def optInt : Option Int → Val
  | none => .null
  | some n => .int n

/-- The record inserted by `POST /tracks`: the payload's fields in
declaration order. -/
def trackToDoc (p : CreateTrack) : Doc :=
  [("title", .str p.title), ("artist", .str p.artist),
   ("album", optStr p.album), ("cover_url", optStr p.cover_url),
   ("audio_url", .str p.audio_url), ("duration_ms", optInt p.duration_ms)]

/-- The re-fetch step of `POST /tracks`:
a `find_one` on the track collection by `ObjectId(_id)` followed by
serialization; a
failing `ObjectId` parse raises and becomes a 400. -/
def create_track_fetch (db' : DB) (idStr : String) : Resp :=
  match parseObjectId idStr with
  | none => .err 400 "invalid id"
  | some oidStr => .ok (serialize_opt (find_one db'.track oidStr))

/-- Route `POST /tracks` (`main.py` lines 100-108): insert the validated record,
re-fetch the stored document by the newly assigned identifier, and return it
serialized; any failure surfaces as a 400. -/
def create_track : Option DB → CreateTrack → Resp × Option DB
  | none, _ => (.err 400 "database unavailable", none)
  | some db, p =>
    let r := create_document db.track db.nextId (trackToDoc p)
    let db' : DB := { db with track := r.2.1, nextId := r.2.2 }
    (create_track_fetch db' r.1, some db')

/-! ### Adding a track to a playlist -/

/-- The update operator `addToSet` on the `tracks` field, applied to one document: create the field as a
one-element array when absent, append `v` when it is an array not containing
`v`, leave the array unchanged when `v` is already present, and fail (a
write error, `none`) when the field holds a non-array value. -/
def addToSetTracks (v : String) (d : Doc) : Option Doc :=
  match dGet d "tracks" with
  | none => some (dSet d "tracks" (.list [v]))
  | some (.list l) =>
    if v ∈ l then some d else some (dSet d "tracks" (.list (l ++ [v])))
  | some _ => none

/-- Mongo `update_one` filtered by `_id` with an `addToSet` on `tracks`: apply the
update to the first document whose `_id` matches; matching nothing is a
no-op; a failing update (`none`) leaves the collection unmodified and
surfaces as an exception. -/
def update_one_addToSet (pid : String) (v : String) :
    List Doc → Option (List Doc)
  | [] => some []
  | d :: rest =>
    if dGet d "_id" = some (.oid pid) then
      (addToSetTracks v d).map (· :: rest)
    else
      (update_one_addToSet pid v rest).map (d :: ·)

/-- Route `POST /playlists/:playlist_id/tracks` (`main.py` lines 137-153): parse
both identifiers (any malformed one raises and is caught as a 400 before any
database access), add the canonical string form of the track identifier to
the playlist's `tracks` set, then return the re-fetched playlist serialized
(`None`, hence a 200 with null body, when no such playlist exists). -/
def add_track_to_playlist (db : DB) (playlist_id : String) (track_id : String) :
    Resp × DB :=
  match parseObjectId playlist_id with
  | none => (.err 400 "invalid playlist id", db)
  | some pid =>
    match parseObjectId track_id with
    | none => (.err 400 "Invalid track id", db)
    | some tid =>
      match update_one_addToSet pid tid db.playlist with
      | none => (.err 400 "write error", db)
      | some pl =>
        (.ok (serialize_opt (find_one pl pid)), { db with playlist := pl })

/-! ### A heap view of `serialize_doc` (for the no-mutation property) -/

/-- A heap of dict objects, addressed by index. -/
abbrev Heap := List Doc

/-- The function `serialize_doc` at the object level: the argument is an address into the
heap.  A falsy (empty) dict is returned as the same object with no write;
otherwise `doc = {**doc}` allocates a fresh object holding a copy, and every
subsequent `pop`/assignment of the body acts on that copy, so the net effect
is a single fresh cell holding the serialized content.  Returns the updated
heap and the address of the returned object. -/
def serialize_doc_heap (h : Heap) (a : Nat) : Heap × Nat :=
  let d := h.getD a []
  if d.isEmpty then (h, a)
  else
    let b := h.length
    ((h ++ [d]).set b (serialize_doc d), b)

/-! ### Dictionary lemmas -/

theorem dGet_dSet_self (d : Doc) (k : String) (v : Val) :
    dGet (dSet d k v) k = some v := by
  induction d with
  | nil => simp [dGet, dSet]
  | cons kv rest ih =>
    obtain ⟨k', v'⟩ := kv
    by_cases h : k' = k
    · simp [dGet, dSet, h]
    · simp [dGet, dSet, h, ih]

theorem dGet_dSet_ne (d : Doc) (k k' : String) (v : Val) (h : k' ≠ k) :
    dGet (dSet d k v) k' = dGet d k' := by
  have h' : ¬k = k' := Ne.symm h
  induction d with
  | nil => simp [dGet, dSet, h']
  | cons kv rest ih =>
    obtain ⟨k₀, v₀⟩ := kv
    by_cases h₀ : k₀ = k
    · subst h₀
      simp [dGet, dSet, h']
    · simp [dGet, dSet, h₀, ih]

theorem dGet_dErase_self (d : Doc) (k : String) :
    dGet (dErase d k) k = none := by
  induction d with
  | nil => simp [dGet, dErase]
  | cons kv rest ih =>
    obtain ⟨k₀, v₀⟩ := kv
    by_cases h₀ : k₀ = k
    · simp [dErase, h₀, ih]
    · simp [dGet, dErase, h₀, ih]

theorem dGet_dErase_ne (d : Doc) (k k' : String) (h : k' ≠ k) :
    dGet (dErase d k) k' = dGet d k' := by
  have h' : ¬k = k' := Ne.symm h
  induction d with
  | nil => simp [dErase]
  | cons kv rest ih =>
    obtain ⟨k₀, v₀⟩ := kv
    by_cases h₀ : k₀ = k
    · subst h₀
      simp [dGet, dErase, h', ih]
    · simp [dGet, dErase, h₀, ih]

/-- The conversion the `ObjectId` loop applies to a single value. -/
def convVal : Val → Val
  | .oid s => .str s
  | v => v

theorem convertOids_eq_map (d : Doc) :
    convertOids d = d.map fun kv => (kv.1, convVal kv.2) := by
  induction d with
  | nil => rfl
  | cons kv rest ih =>
    obtain ⟨k, v⟩ := kv
    cases v <;> simp [convertOids, convVal] at ih ⊢ <;> exact ih

theorem convVal_convVal (v : Val) : convVal (convVal v) = convVal v := by
  cases v <;> rfl

theorem convVal_of_not_truthy (v : Val) (h : v.truthy = false) :
    convVal v = v := by
  cases v <;> simp [Val.truthy] at h ⊢ <;> rfl

theorem dGet_convertOids (d : Doc) (k : String) :
    dGet (convertOids d) k = (dGet d k).map convVal := by
  induction d with
  | nil => simp [convertOids, dGet]
  | cons kv rest ih =>
    obtain ⟨k₀, v₀⟩ := kv
    rw [convertOids_eq_map] at ih ⊢
    by_cases h₀ : k₀ = k
    · simp [dGet, h₀]
    · simp [dGet, h₀, ih]

theorem convertOids_convertOids (d : Doc) :
    convertOids (convertOids d) = convertOids d := by
  simp [convertOids_eq_map, convVal_convVal]

theorem convertOids_isEmpty (d : Doc) :
    (convertOids d).isEmpty = d.isEmpty := by
  rw [convertOids_eq_map]
  cases d <;> simp

theorem dSet_isEmpty (d : Doc) (k : String) (v : Val) :
    (dSet d k v).isEmpty = false := by
  cases d with
  | nil => rfl
  | cons kv rest =>
    obtain ⟨k₀, v₀⟩ := kv
    by_cases h₀ : k₀ = k <;> simp [dSet, h₀]

/-- Holds (`true`) exactly on `ObjectId`-typed values. -/
def isOidVal : Val → Bool
  | .oid _ => true
  | _ => false

theorem convVal_of_not_oid (v : Val) (h : isOidVal v = false) : convVal v = v := by
  cases v <;> simp [isOidVal] at h ⊢ <;> rfl

theorem convertOids_of_no_oid (d : Doc)
    (h : (d.all fun kv => !isOidVal kv.2) = true) : convertOids d = d := by
  rw [convertOids_eq_map]
  induction d with
  | nil => rfl
  | cons kv rest ih =>
    obtain ⟨k, v⟩ := kv
    simp only [List.all_cons, Bool.and_eq_true, Bool.not_eq_true'] at h
    simp only [List.map_cons, ih (by simpa using h.2)]
    rw [convVal_of_not_oid v h.1]

/-! ### Serialization theorems -/

/-- C3: the serialization function is idempotent — for every document
(including the `None` case) serializing twice equals serializing once. -/
theorem serialize_idempotent (o : Option Doc) :
    serialize_opt (serialize_opt o) = serialize_opt o := by
  cases o with
  | none => rfl
  | some d =>
    show some (serialize_doc (serialize_doc d)) = some (serialize_doc d)
    congr 1
    by_cases he : d.isEmpty
    · simp [serialize_doc, he]
    · by_cases ht : truthyOpt (dGet d "_id") = true
      · have hne : (serialize_doc d).isEmpty = false := by
          simp [serialize_doc, he, ht, convertOids_isEmpty, dSet_isEmpty]
        have hid : dGet (serialize_doc d) "_id" = none := by
          simp only [serialize_doc, he, ht, if_false, if_true, Bool.false_eq_true]
          rw [dGet_convertOids, dGet_dSet_ne _ _ _ _ (by decide),
            dGet_dErase_self]
          rfl
        have hconv : serialize_doc d = convertOids (serialize_doc d) := by
          simp only [serialize_doc, he, ht, if_false, if_true, Bool.false_eq_true]
          rw [convertOids_convertOids]
        conv_lhs => rw [serialize_doc, if_neg (by simp [hne]), hid]
        simp only [truthyOpt, Bool.false_eq_true, if_false, ← hconv]
      · have hser : serialize_doc d = convertOids d := by
          simp [serialize_doc, he, ht]
        have hne : (convertOids d).isEmpty = false := by
          simp [convertOids_isEmpty, he]
        have hid : truthyOpt (dGet (convertOids d) "_id") = false := by
          rw [dGet_convertOids]
          cases hd : dGet d "_id" with
          | none => rfl
          | some v =>
            rw [hd] at ht
            simp only [truthyOpt, Bool.not_eq_true] at ht
            simp [truthyOpt, convVal_of_not_truthy v ht, ht]
        rw [hser]
        conv_lhs => rw [serialize_doc, if_neg (by simp [hne]), hid]
        simp [convertOids_convertOids]

/-- C4, counterexample: a document with no `_id` field but an
`ObjectId`-typed value is not returned unchanged — the nested-conversion
loop rewrites the value to a string. -/
theorem serialize_no_id_changed_cex :
    dGet [("ref", Val.oid "aaaaaaaaaaaaaaaaaaaaaaaa")] "_id" = none ∧
      serialize_doc [("ref", Val.oid "aaaaaaaaaaaaaaaaaaaaaaaa")] ≠
        [("ref", Val.oid "aaaaaaaaaaaaaaaaaaaaaaaa")] := by
  decide

/-- C4, amended: serialization returns an absent/null document unchanged, and
returns unchanged any document that has no `_id` field and no
`ObjectId`-typed values (i.e. already-serialized input). -/
theorem serialize_null_and_serialized_unchanged (d : Doc)
    (h1 : dGet d "_id" = none)
    (h2 : (d.all fun kv => !isOidVal kv.2) = true) :
    serialize_opt none = none ∧ serialize_opt (some d) = some d := by
  refine ⟨rfl, ?_⟩
  show some (serialize_doc d) = some d
  congr 1
  by_cases he : d.isEmpty
  · simp [serialize_doc, he]
  · simp [serialize_doc, he, h1, truthyOpt, convertOids_of_no_oid d h2]

/-- Witness for the amended C4 at a concrete already-serialized document. -/
theorem serialize_null_and_serialized_unchanged_witness :
    serialize_opt none = none ∧
      serialize_opt (some [("title", Val.str "X"), ("id", Val.str "y")]) =
        some [("title", Val.str "X"), ("id", Val.str "y")] :=
  serialize_null_and_serialized_unchanged _ (by decide) (by decide)

/-- C9: the serialization function never mutates its argument — in the heap
view, the cell of the input document is unchanged by the call (the body
copies the dict before popping `_id`, adding `id`, or converting values),
and the returned object holds the serialized content. -/
theorem serialize_doc_heap_no_mutation (h : Heap) (a : Nat) (ha : a < h.length) :
    ((serialize_doc_heap h a).1)[a]? = h[a]? ∧
      ((serialize_doc_heap h a).1).getD (serialize_doc_heap h a).2 [] =
        serialize_doc (h.getD a []) := by
  have h1 : serialize_doc_heap h a =
      if (h.getD a []).isEmpty then (h, a)
      else ((h ++ [h.getD a []]).set h.length (serialize_doc (h.getD a [])),
            h.length) := rfl
  by_cases he : (h.getD a []).isEmpty
  · rw [h1, if_pos he]
    refine ⟨rfl, ?_⟩
    have h2 : serialize_doc (h.getD a []) = h.getD a [] := by
      unfold serialize_doc
      rw [if_pos he]
    rw [h2]
  · rw [h1, if_neg he]
    constructor
    · rw [List.getElem?_set_ne (by omega), List.getElem?_append, if_pos ha]
    · have hlen : h.length < (h ++ [h.getD a []]).length := by simp
      have h4 : ((h ++ [h.getD a []]).set h.length
            (serialize_doc (h.getD a [])))[h.length]? =
          some (serialize_doc (h.getD a [])) :=
        List.getElem?_set_eq_of_lt _ hlen
      simp [List.getD, h4]

/-- Witness for C9 at a one-cell heap holding a document with an `_id`. -/
theorem serialize_doc_heap_no_mutation_witness :
    ((serialize_doc_heap [[("_id", Val.oid "aaaaaaaaaaaaaaaaaaaaaaaa")]] 0).1)[0]?
        = ([[("_id", Val.oid "aaaaaaaaaaaaaaaaaaaaaaaa")]] : Heap)[0]? ∧
      ((serialize_doc_heap [[("_id", Val.oid "aaaaaaaaaaaaaaaaaaaaaaaa")]] 0).1).getD
          (serialize_doc_heap [[("_id", Val.oid "aaaaaaaaaaaaaaaaaaaaaaaa")]] 0).2 [] =
        serialize_doc
          (([[("_id", Val.oid "aaaaaaaaaaaaaaaaaaaaaaaa")]] : Heap).getD 0 []) :=
  serialize_doc_heap_no_mutation _ 0 (by decide)

/-! ### Error handling of the add-track route -/

/-- A fixed empty starting state used by concrete instances. -/
def db0 : DB := ⟨[], [], 0⟩

/-- C7: a malformed playlist or track identifier makes the route return a
400 and leaves the state untouched (the parse failures happen before any
database access). -/
theorem add_track_malformed_id_400 (db : DB) (p t : String)
    (h : parseObjectId p = none ∨ parseObjectId t = none) :
    (add_track_to_playlist db p t).1.is400 = true ∧
      (add_track_to_playlist db p t).2 = db := by
  cases hp : parseObjectId p with
  | none => simp [add_track_to_playlist, hp, Resp.is400]
  | some pid =>
    cases ht : parseObjectId t with
    | none => simp [add_track_to_playlist, hp, ht, Resp.is400]
    | some tid =>
      rcases h with h | h
      · rw [hp] at h
        cases h
      · rw [ht] at h
        cases h

/-- Witness for C7 at the spec's example of malformed identifiers. -/
theorem add_track_malformed_id_400_witness :
    (add_track_to_playlist db0 "bad-id" "alsobad").1.is400 = true ∧
      (add_track_to_playlist db0 "bad-id" "alsobad").2 = db0 :=
  add_track_malformed_id_400 db0 "bad-id" "alsobad" (Or.inl (by decide))

theorem update_one_addToSet_of_find_none (pid v : String) (coll : List Doc)
    (h : find_one coll pid = none) :
    update_one_addToSet pid v coll = some coll := by
  induction coll with
  | nil => rfl
  | cons d rest ih =>
    unfold find_one at h
    by_cases hd : dGet d "_id" = some (.oid pid)
    · rw [if_pos hd] at h
      cases h
    · rw [if_neg hd] at h
      simp [update_one_addToSet, hd, ih h]

/-- C6, counterexample: with syntactically valid identifiers and no matching
playlist document, the route returns a 200 with a null body — not a 400. -/
theorem add_track_missing_playlist_cex :
    find_one db0.playlist "aaaaaaaaaaaaaaaaaaaaaaaa" = none ∧
      (add_track_to_playlist db0 "aaaaaaaaaaaaaaaaaaaaaaaa"
          "bbbbbbbbbbbbbbbbbbbbbbbb").1 = Resp.ok none ∧
      (add_track_to_playlist db0 "aaaaaaaaaaaaaaaaaaaaaaaa"
          "bbbbbbbbbbbbbbbbbbbbbbbb").1.is400 = false := by
  decide

/-- C6, amended: when both identifiers are well-formed but no playlist with
the given identifier exists, the route completes with a 200 whose body is
the missing document serialized as-is, i.e. null, and the state is
unchanged; only malformed identifiers (or a failing update) produce a
400. -/
theorem add_track_missing_playlist_ok_null (db : DB) (p t pid tid : String)
    (hp : parseObjectId p = some pid) (ht : parseObjectId t = some tid)
    (hf : find_one db.playlist pid = none) :
    add_track_to_playlist db p t = (Resp.ok none, db) := by
  simp [add_track_to_playlist, hp, ht,
    update_one_addToSet_of_find_none pid tid db.playlist hf, hf, serialize_opt]

/-- Witness for the amended C6 on the empty state. -/
theorem add_track_missing_playlist_ok_null_witness :
    add_track_to_playlist db0 "aaaaaaaaaaaaaaaaaaaaaaaa"
        "bbbbbbbbbbbbbbbbbbbbbbbb" = (Resp.ok none, db0) :=
  add_track_missing_playlist_ok_null db0 "aaaaaaaaaaaaaaaaaaaaaaaa"
    "bbbbbbbbbbbbbbbbbbbbbbbb" "aaaaaaaaaaaaaaaaaaaaaaaa"
    "bbbbbbbbbbbbbbbbbbbbbbbb" (by decide) (by decide) (by decide)

/-! ### Set semantics of the add-track update -/

theorem addToSetTracks_of_absent (v : String) (d : Doc)
    (hd : dGet d "tracks" = none) :
    addToSetTracks v d = some (dSet d "tracks" (.list [v])) := by
  unfold addToSetTracks
  rw [hd]

theorem addToSetTracks_of_list (v : String) (d : Doc) (l : List String)
    (hd : dGet d "tracks" = some (.list l)) :
    addToSetTracks v d =
      if v ∈ l then some d
      else some (dSet d "tracks" (.list (l ++ [v]))) := by
  unfold addToSetTracks
  rw [hd]

theorem dGet_addToSet_ne (v : String) (d d' : Doc) (k : String)
    (hk : k ≠ "tracks") (h : addToSetTracks v d = some d') :
    dGet d' k = dGet d k := by
  cases hd : dGet d "tracks" with
  | none =>
    rw [addToSetTracks_of_absent v d hd] at h
    injection h with h
    rw [← h, dGet_dSet_ne _ _ _ _ hk]
  | some w =>
    cases w with
    | list l =>
      rw [addToSetTracks_of_list v d l hd] at h
      by_cases hv : v ∈ l
      · rw [if_pos hv] at h
        injection h with h
        rw [h]
      · rw [if_neg hv] at h
        injection h with h
        rw [← h, dGet_dSet_ne _ _ _ _ hk]
    | null => unfold addToSetTracks at h; rw [hd] at h; cases h
    | str s => unfold addToSetTracks at h; rw [hd] at h; cases h
    | int n => unfold addToSetTracks at h; rw [hd] at h; cases h
    | bool b => unfold addToSetTracks at h; rw [hd] at h; cases h
    | oid s => unfold addToSetTracks at h; rw [hd] at h; cases h

theorem addToSet_idem (v : String) (d d' : Doc)
    (h : addToSetTracks v d = some d') : addToSetTracks v d' = some d' := by
  cases hd : dGet d "tracks" with
  | none =>
    rw [addToSetTracks_of_absent v d hd] at h
    injection h with h
    rw [← h, addToSetTracks_of_list v _ [v] (dGet_dSet_self d "tracks" _)]
    simp
  | some w =>
    cases w with
    | list l =>
      rw [addToSetTracks_of_list v d l hd] at h
      by_cases hv : v ∈ l
      · rw [if_pos hv] at h
        injection h with h
        rw [← h, addToSetTracks_of_list v d l hd, if_pos hv]
      · rw [if_neg hv] at h
        injection h with h
        rw [← h,
          addToSetTracks_of_list v _ (l ++ [v]) (dGet_dSet_self d "tracks" _)]
        simp
    | null => unfold addToSetTracks at h; rw [hd] at h; cases h
    | str s => unfold addToSetTracks at h; rw [hd] at h; cases h
    | int n => unfold addToSetTracks at h; rw [hd] at h; cases h
    | bool b => unfold addToSetTracks at h; rw [hd] at h; cases h
    | oid s => unfold addToSetTracks at h; rw [hd] at h; cases h

theorem update_one_addToSet_idem (pid v : String) (coll pl : List Doc)
    (h : update_one_addToSet pid v coll = some pl) :
    update_one_addToSet pid v pl = some pl := by
  induction coll generalizing pl with
  | nil =>
    injection h with h
    rw [← h]
    rfl
  | cons d rest ih =>
    unfold update_one_addToSet at h
    by_cases hd : dGet d "_id" = some (.oid pid)
    · rw [if_pos hd] at h
      cases ha : addToSetTracks v d with
      | none => rw [ha] at h; cases h
      | some d' =>
        rw [ha] at h
        simp only [Option.map_some'] at h
        injection h with h
        have hid' : dGet d' "_id" = some (.oid pid) := by
          rw [dGet_addToSet_ne v d d' "_id" (by decide) ha, hd]
        rw [← h]
        unfold update_one_addToSet
        rw [if_pos hid', addToSet_idem v d d' ha]
        rfl
    · rw [if_neg hd] at h
      cases hr : update_one_addToSet pid v rest with
      | none => rw [hr] at h; cases h
      | some pl' =>
        rw [hr] at h
        simp only [Option.map_some'] at h
        injection h with h
        rw [← h]
        unfold update_one_addToSet
        rw [if_neg hd, ih pl' hr]
        rfl

theorem add_track_same_parse_twice (db : DB) (p t1 t2 : String)
    (hpar : parseObjectId t1 = parseObjectId t2) :
    (add_track_to_playlist (add_track_to_playlist db p t1).2 p t2).2 =
      (add_track_to_playlist db p t1).2 := by
  cases hp : parseObjectId p with
  | none => simp [add_track_to_playlist, hp]
  | some pid =>
    cases ht1 : parseObjectId t1 with
    | none =>
      have ht2 : parseObjectId t2 = none := by rw [← hpar, ht1]
      simp [add_track_to_playlist, hp, ht1, ht2]
    | some tid =>
      have ht2 : parseObjectId t2 = some tid := by rw [← hpar, ht1]
      cases hu : update_one_addToSet pid tid db.playlist with
      | none => simp [add_track_to_playlist, hp, ht1, ht2, hu]
      | some pl =>
        have hu2 : update_one_addToSet pid tid pl = some pl :=
          update_one_addToSet_idem pid tid db.playlist pl hu
        simp [add_track_to_playlist, hp, ht1, ht2, hu, hu2]

/-- C2: adding the same track identifier to a playlist twice leaves the
state — in particular the playlist's `tracks` sequence — exactly as adding
it once does (`$addToSet` set-union semantics, no duplicate entries), for
every starting state and every identifier string. -/
theorem add_track_to_playlist_idempotent (db : DB) (p t : String) :
    (add_track_to_playlist (add_track_to_playlist db p t).2 p t).2 =
      (add_track_to_playlist db p t).2 :=
  add_track_same_parse_twice db p t t rfl

theorem find_one_after_update (pid v : String) (d d' : Doc)
    (ha : addToSetTracks v d = some d') :
    ∀ coll, find_one coll pid = some d →
      ∃ coll', update_one_addToSet pid v coll = some coll' ∧
        find_one coll' pid = some d' := by
  intro coll
  induction coll with
  | nil => intro h; cases h
  | cons c rest ih =>
    intro h
    unfold find_one at h
    by_cases hc : dGet c "_id" = some (.oid pid)
    · rw [if_pos hc] at h
      injection h with h
      subst h
      refine ⟨d' :: rest, ?_, ?_⟩
      · unfold update_one_addToSet
        rw [if_pos hc, ha]
        rfl
      · have hid' : dGet d' "_id" = some (.oid pid) := by
          rw [dGet_addToSet_ne v c d' "_id" (by decide) ha, hc]
        unfold find_one
        rw [if_pos hid']
    · rw [if_neg hc] at h
      obtain ⟨coll', hu, hf⟩ := ih h
      refine ⟨c :: coll', ?_, ?_⟩
      · unfold update_one_addToSet
        rw [if_neg hc, hu]
        rfl
      · unfold find_one
        rw [if_neg hc]
        exact hf

/-- C10: the add-track route stores the canonical lowercase-hex rendering of
the parsed track identifier, not the raw request string — a playlist whose
`tracks` array lacks the canonical form gains exactly the entry
`lowerStr t1` — and two request strings that parse to the same identifier
(e.g. differing only in hex letter case) add at most one entry: the second
add leaves the state of the first unchanged. -/
theorem add_track_canonical_id (db : DB) (p t1 t2 pid : String) (d : Doc)
    (l : List String)
    (hp : parseObjectId p = some pid)
    (h1 : objectIdValid t1 = true)
    (h2 : objectIdValid t2 = true)
    (heq : lowerStr t1 = lowerStr t2)
    (hf : find_one db.playlist pid = some d)
    (hl : dGet d "tracks" = some (.list l))
    (hmem : lowerStr t1 ∉ l) :
    find_one ((add_track_to_playlist db p t1).2).playlist pid =
        some (dSet d "tracks" (.list (l ++ [lowerStr t1]))) ∧
      (add_track_to_playlist (add_track_to_playlist db p t1).2 p t2).2 =
        (add_track_to_playlist db p t1).2 := by
  have hpt1 : parseObjectId t1 = some (lowerStr t1) := by
    simp [parseObjectId, h1]
  refine ⟨?_, add_track_same_parse_twice db p t1 t2
    (by simp [parseObjectId, h1, h2, heq])⟩
  have ha : addToSetTracks (lowerStr t1) d =
      some (dSet d "tracks" (.list (l ++ [lowerStr t1]))) := by
    rw [addToSetTracks_of_list _ d l hl, if_neg hmem]
  obtain ⟨coll', hu, hfind⟩ :=
    find_one_after_update pid (lowerStr t1) d _ ha db.playlist hf
  simp only [add_track_to_playlist, hp, hpt1, hu]
  exact hfind

/-- Witness for C10: the same identifier in upper and lower hex case,
against a playlist with an empty non-trivial `tracks` array. -/
theorem add_track_canonical_id_witness :
    find_one ((add_track_to_playlist
          ⟨[], [[("_id", Val.oid "cccccccccccccccccccccccc"),
                 ("name", Val.str "P"), ("tracks", Val.list ["x"])]], 0⟩
          "cccccccccccccccccccccccc" "ABCDEFABCDEFABCDEFABCDEF").2).playlist
        "cccccccccccccccccccccccc" =
      some (dSet [("_id", Val.oid "cccccccccccccccccccccccc"),
                  ("name", Val.str "P"), ("tracks", Val.list ["x"])]
        "tracks" (Val.list (["x"] ++ [lowerStr "ABCDEFABCDEFABCDEFABCDEF"]))) ∧
      (add_track_to_playlist
          (add_track_to_playlist
            ⟨[], [[("_id", Val.oid "cccccccccccccccccccccccc"),
                   ("name", Val.str "P"), ("tracks", Val.list ["x"])]], 0⟩
            "cccccccccccccccccccccccc" "ABCDEFABCDEFABCDEFABCDEF").2
          "cccccccccccccccccccccccc" "abcdefabcdefabcdefabcdef").2 =
        (add_track_to_playlist
          ⟨[], [[("_id", Val.oid "cccccccccccccccccccccccc"),
                 ("name", Val.str "P"), ("tracks", Val.list ["x"])]], 0⟩
          "cccccccccccccccccccccccc" "ABCDEFABCDEFABCDEFABCDEF").2 :=
  add_track_canonical_id _ _ _ "abcdefabcdefabcdefabcdef"
    "cccccccccccccccccccccccc" _ ["x"] (by decide) (by decide) (by decide)
    (by decide) (by decide) (by decide) (by decide)

/-! ### List routes -/

/-- C8: `GET /tracks` and `GET /playlists` return at most `limit` records,
behave with `limit = 50` when the query parameter is omitted, and return the
empty sequence (not an error) on an empty collection. -/
theorem list_routes_limit (db : DB) (limit : Nat) :
    (list_tracks db limit).length ≤ limit ∧
      (list_playlists db limit).length ≤ limit ∧
      list_tracks_default db = list_tracks db 50 ∧
      list_playlists_default db = list_playlists db 50 ∧
      (db.track = [] → list_tracks db limit = []) ∧
      (db.playlist = [] → list_playlists db limit = []) := by
  refine ⟨?_, ?_, rfl, rfl, ?_, ?_⟩
  · simp only [list_tracks, get_documents, List.length_map, List.length_take]
    omega
  · simp only [list_playlists, get_documents, List.length_map,
      List.length_take]
    omega
  · intro h
    simp [list_tracks, get_documents, h]
  · intro h
    simp [list_playlists, get_documents, h]

/-- Witness for C8 on the empty state with an explicit limit. -/
theorem list_routes_limit_witness :
    (list_tracks db0 7).length ≤ 7 ∧
      (list_playlists db0 7).length ≤ 7 ∧
      list_tracks_default db0 = list_tracks db0 50 ∧
      list_playlists_default db0 = list_playlists db0 50 ∧
      list_tracks db0 7 = [] ∧
      list_playlists db0 7 = [] := by
  obtain ⟨h1, h2, h3, h4, h5, h6⟩ := list_routes_limit db0 7
  exact ⟨h1, h2, h3, h4, h5 rfl, h6 rfl⟩

/-! ### The seed route -/

theorem insertAll_demo (n : Nat) :
    insertAll [] n demo_tracks =
      ([("_id", Val.oid (natToHex24 n)) :: demo1,
        ("_id", Val.oid (natToHex24 (n + 1))) :: demo2,
        ("_id", Val.oid (natToHex24 (n + 2))) :: demo3], n + 3) := rfl

theorem dErase_id_cons (v : Val) (rest : Doc) :
    dErase (("_id", v) :: rest) "_id" = dErase rest "_id" := by
  simp [dErase]

theorem dErase_demo1 : dErase demo1 "_id" = demo1 := by decide

theorem dErase_demo2 : dErase demo2 "_id" = demo2 := by decide

theorem dErase_demo3 : dErase demo3 "_id" = demo3 := by decide

/-- C5: `POST /seed` on a non-empty track collection reports `seeded: false`
with the existing count and changes nothing; on an empty track collection it
inserts exactly the three fixed demo tracks (reporting `count: 3`), and a
second call afterwards reports `seeded: false` with `existing: 3` and leaves
the state unchanged. -/
theorem seed_behavior (db : DB) :
    (db.track ≠ [] →
      seed (some db) =
        (.ok (some [("status", .str "ok"), ("seeded", .bool false),
                    ("existing", .int db.track.length)]), some db)) ∧
      (db.track = [] →
        (seed (some db)).1 =
            .ok (some [("status", .str "ok"), ("seeded", .bool true),
                       ("count", .int 3)]) ∧
          ∀ db', (seed (some db)).2 = some db' →
            db'.track.length = 3 ∧
              db'.track.map (fun d => dErase d "_id") = demo_tracks ∧
              db'.playlist = db.playlist ∧
              seed (some db') =
                (.ok (some [("status", .str "ok"), ("seeded", .bool false),
                            ("existing", .int 3)]), some db')) := by
  constructor
  · intro h
    have hlen : db.track.length > 0 := List.length_pos.mpr h
    simp only [seed]
    rw [if_pos hlen]
  · intro h
    have hlen : ¬db.track.length > 0 := by simp [h]
    have hseed : seed (some db) =
        (.ok (some [("status", .str "ok"), ("seeded", .bool true),
                    ("count", .int 3)]),
         some { db with
                  track := [("_id", Val.oid (natToHex24 db.nextId)) :: demo1,
                            ("_id", Val.oid (natToHex24 (db.nextId + 1))) :: demo2,
                            ("_id", Val.oid (natToHex24 (db.nextId + 2))) :: demo3],
                  nextId := db.nextId + 3 }) := by
      simp only [seed]
      rw [if_neg hlen, h, insertAll_demo]
      rfl
    refine ⟨by rw [hseed], ?_⟩
    intro db' hdb'
    rw [hseed] at hdb'
    injection hdb' with hdb'
    subst hdb'
    refine ⟨rfl, ?_, rfl, ?_⟩
    · simp only [List.map_cons, List.map_nil, dErase_id_cons, dErase_demo1,
        dErase_demo2, dErase_demo3]
      rfl
    · simp only [seed]
      rw [if_pos (by simp : ([("_id", Val.oid (natToHex24 db.nextId)) :: demo1,
        ("_id", Val.oid (natToHex24 (db.nextId + 1))) :: demo2,
        ("_id", Val.oid (natToHex24 (db.nextId + 2))) :: demo3].length > 0))]
      rfl

/-- A non-empty starting state used by the seed witness. -/
def dbNE : DB := ⟨[[("title", Val.str "T")]], [], 0⟩

/-- The state produced by seeding the empty state. -/
def db0seeded : DB :=
  ⟨[("_id", Val.oid (natToHex24 0)) :: demo1,
    ("_id", Val.oid (natToHex24 1)) :: demo2,
    ("_id", Val.oid (natToHex24 2)) :: demo3], [], 3⟩

/-- Witness for C5: the non-empty branch at a one-track state and the empty
branch at the empty state, with the seeded state made explicit. -/
theorem seed_behavior_witness :
    seed (some dbNE) =
        (.ok (some [("status", .str "ok"), ("seeded", .bool false),
                    ("existing", .int dbNE.track.length)]), some dbNE) ∧
      (seed (some db0)).1 =
          .ok (some [("status", .str "ok"), ("seeded", .bool true),
                     ("count", .int 3)]) ∧
      db0seeded.track.length = 3 ∧
      db0seeded.track.map (fun d => dErase d "_id") = demo_tracks ∧
      db0seeded.playlist = db0.playlist ∧
      seed (some db0seeded) =
        (.ok (some [("status", .str "ok"), ("seeded", .bool false),
                    ("existing", .int 3)]), some db0seeded) := by
  have h1 := (seed_behavior dbNE).1 (by decide)
  obtain ⟨h2, h3⟩ := (seed_behavior db0).2 rfl
  obtain ⟨h4, h5, h6, h7⟩ := h3 db0seeded rfl
  exact ⟨h1, h2, h4, h5, h6, h7⟩

/-! ### Generated identifiers -/

theorem natToHexList_length (k : Nat) : ∀ n, (natToHexList k n).length = k := by
  induction k with
  | zero => intro n; rfl
  | succ k ih => intro n; simp [natToHexList, ih]

theorem hex_digit_is_hex : ∀ m, m < 16 → isHexChar (hexChars[m]?.getD '0') = true := by
  decide

theorem hex_digit_lower :
    ∀ m, m < 16 → (hexChars[m]?.getD '0').toLower = hexChars[m]?.getD '0' := by
  decide

theorem hexChars_getD_inj :
    ∀ i, i < 16 → ∀ j, j < 16 → hexChars.getD i '0' = hexChars.getD j '0' → i = j := by
  decide

theorem natToHexList_all_hex (k : Nat) :
    ∀ n, (natToHexList k n).all isHexChar = true := by
  induction k with
  | zero => intro n; rfl
  | succ k ih =>
    intro n
    simp [natToHexList, List.all_append, ih,
      hex_digit_is_hex (n % 16) (Nat.mod_lt _ (by norm_num))]

theorem objectIdValid_natToHex24 (n : Nat) :
    objectIdValid (natToHex24 n) = true := by
  unfold objectIdValid natToHex24
  simp [natToHexList_length, natToHexList_all_hex]

theorem natToHexList_lower (k : Nat) :
    ∀ n, (natToHexList k n).map Char.toLower = natToHexList k n := by
  induction k with
  | zero => intro n; rfl
  | succ k ih =>
    intro n
    simp [natToHexList, ih, hex_digit_lower (n % 16) (Nat.mod_lt _ (by norm_num))]

theorem lowerStr_natToHex24 (n : Nat) : lowerStr (natToHex24 n) = natToHex24 n := by
  unfold lowerStr natToHex24
  exact congrArg String.mk (natToHexList_lower 24 n)

theorem parseObjectId_natToHex24 (n : Nat) :
    parseObjectId (natToHex24 n) = some (natToHex24 n) := by
  simp [parseObjectId, objectIdValid_natToHex24, lowerStr_natToHex24]

theorem natToHexList_inj (k : Nat) :
    ∀ a b, a < 16 ^ k → b < 16 ^ k → natToHexList k a = natToHexList k b → a = b := by
  induction k with
  | zero =>
    intro a b ha hb _
    simp [pow_zero] at ha hb
    omega
  | succ k ih =>
    intro a b ha hb h
    unfold natToHexList at h
    obtain ⟨h1, h2⟩ := List.append_inj h
      (by rw [natToHexList_length, natToHexList_length])
    have hm : a % 16 = b % 16 := by
      injection h2 with h2 _
      exact hexChars_getD_inj _ (Nat.mod_lt _ (by norm_num)) _
        (Nat.mod_lt _ (by norm_num)) h2
    have hpow : (16 : Nat) ^ (k + 1) = 16 ^ k * 16 := pow_succ 16 k
    have hd : a / 16 = b / 16 :=
      ih _ _ ((Nat.div_lt_iff_lt_mul (by norm_num)).mpr (hpow ▸ ha))
        ((Nat.div_lt_iff_lt_mul (by norm_num)).mpr (hpow ▸ hb)) h1
    omega

/-- The identifier strings already assigned in the state (the `_id` fields
over both collections). -/
def usedIds (db : DB) : List String :=
  (db.track ++ db.playlist).filterMap fun d =>
    match dGet d "_id" with
    | some (.oid s) => some s
    | _ => none

/-- Reachable-state invariant: the counter is within the 24-hex identifier
space, and every identifier already assigned was rendered from an earlier
counter value — i.e. identifiers are database-generated and never reused
(spec §3). -/
def WF (db : DB) : Prop :=
  db.nextId < 16 ^ 24 ∧ ∀ s ∈ usedIds db, ∃ n, n < db.nextId ∧ s = natToHex24 n

theorem natToHex24_fresh (db : DB) (hwf : WF db) :
    natToHex24 db.nextId ∉ usedIds db := by
  intro hmem
  obtain ⟨n, hn, heq⟩ := hwf.2 _ hmem
  have hlist : natToHexList 24 db.nextId = natToHexList 24 n := by
    have := congrArg String.data heq
    exact this
  have : db.nextId = n :=
    natToHexList_inj 24 _ _ hwf.1 (lt_trans hn hwf.1) hlist
  omega

theorem mem_usedIds (db : DB) (d : Doc) (s : String)
    (hd : d ∈ db.track ++ db.playlist) (hid : dGet d "_id" = some (.oid s)) :
    s ∈ usedIds db := by
  apply List.mem_filterMap.mpr
  exact ⟨d, hd, by rw [hid]⟩

theorem find_one_append_fresh (coll : List Doc) (x : Doc) (oidStr : String)
    (h : ∀ d ∈ coll, dGet d "_id" ≠ some (.oid oidStr))
    (hx : dGet x "_id" = some (.oid oidStr)) :
    find_one (coll ++ [x]) oidStr = some x := by
  induction coll with
  | nil =>
    show find_one [x] oidStr = some x
    unfold find_one
    rw [if_pos hx]
  | cons c rest ih =>
    have hc := h c (List.mem_cons_self _ _)
    show find_one (c :: (rest ++ [x])) oidStr = some x
    unfold find_one
    rw [if_neg hc]
    exact ih fun d hd => h d (List.mem_cons_of_mem _ hd)

/-! ### Serializing a stored track -/

theorem convVal_optStr (x : Option String) : convVal (optStr x) = optStr x := by
  cases x <;> rfl

theorem convVal_optInt (x : Option Int) : convVal (optInt x) = optInt x := by
  cases x <;> rfl

theorem convVal_str (s : String) : convVal (Val.str s) = Val.str s := rfl

theorem serialize_stored_track (p : CreateTrack) (s : String) :
    serialize_doc (("_id", Val.oid s) :: trackToDoc p) =
      trackToDoc p ++ [("id", Val.str s)] := by
  have hget : dGet (("_id", Val.oid s) :: trackToDoc p) "_id" =
      some (.oid s) := by
    simp [dGet]
  unfold serialize_doc
  rw [if_neg (by simp), hget]
  rw [if_pos (by rfl)]
  have herase : dErase (("_id", Val.oid s) :: trackToDoc p) "_id" =
      trackToDoc p := by
    rw [dErase_id_cons]
    simp [trackToDoc, dErase]
  rw [herase]
  have hset : dSet (trackToDoc p) "id" (Val.str (pyStr ((some (Val.oid s)).getD .null))) =
      trackToDoc p ++ [("id", Val.str s)] := by
    simp [trackToDoc, dSet, pyStr]
  rw [hset, convertOids_eq_map]
  simp [trackToDoc, convVal_str, convVal_optStr, convVal_optInt]

/-- C1: `POST /tracks` on a valid payload returns the serialized stored
record re-fetched by the newly assigned identifier — the payload's fields
plus a fresh `id` string distinct from every previously assigned identifier
— and a subsequent `GET /tracks` (with a limit covering the collection)
includes that record. -/
theorem create_track_fresh_roundtrip (db : DB) (p : CreateTrack) (limit : Nat)
    (hwf : WF db) (hlim : db.track.length + 1 ≤ limit) :
    (create_track (some db) p).1 =
        .ok (some (trackToDoc p ++ [("id", Val.str (natToHex24 db.nextId))])) ∧
      natToHex24 db.nextId ∉ usedIds db ∧
      ∀ db', (create_track (some db) p).2 = some db' →
        trackToDoc p ++ [("id", Val.str (natToHex24 db.nextId))] ∈
          list_tracks db' limit := by
  have hfresh := natToHex24_fresh db hwf
  have hnotin : ∀ d ∈ db.track,
      dGet d "_id" ≠ some (.oid (natToHex24 db.nextId)) := by
    intro d hd hcon
    exact hfresh (mem_usedIds db d _ (List.mem_append_left _ hd) hcon)
  have hfind : find_one
      (db.track ++ [("_id", Val.oid (natToHex24 db.nextId)) :: trackToDoc p])
      (natToHex24 db.nextId) =
      some (("_id", Val.oid (natToHex24 db.nextId)) :: trackToDoc p) :=
    find_one_append_fresh db.track _ _ hnotin (by simp [dGet])
  have hct : create_track (some db) p =
      (.ok (some (trackToDoc p ++ [("id", Val.str (natToHex24 db.nextId))])),
       some { db with
                track := db.track ++
                  [("_id", Val.oid (natToHex24 db.nextId)) :: trackToDoc p],
                nextId := db.nextId + 1 }) := by
    have hstep : create_track (some db) p =
        (create_track_fetch
          { db with
              track := db.track ++
                [("_id", Val.oid (natToHex24 db.nextId)) :: trackToDoc p],
              nextId := db.nextId + 1 }
          (natToHex24 db.nextId),
         some { db with
                  track := db.track ++
                    [("_id", Val.oid (natToHex24 db.nextId)) :: trackToDoc p],
                  nextId := db.nextId + 1 }) := rfl
    rw [hstep]
    unfold create_track_fetch
    rw [parseObjectId_natToHex24]
    show (Resp.ok (serialize_opt (find_one
        (db.track ++ [("_id", Val.oid (natToHex24 db.nextId)) :: trackToDoc p])
        (natToHex24 db.nextId))), _) = _
    rw [hfind]
    show (Resp.ok (some (serialize_doc
        (("_id", Val.oid (natToHex24 db.nextId)) :: trackToDoc p))), _) = _
    rw [serialize_stored_track]
  refine ⟨by rw [hct], hfresh, ?_⟩
  intro db' hdb'
  rw [hct] at hdb'
  injection hdb' with hdb'
  subst hdb'
  unfold list_tracks get_documents
  rw [List.take_of_length_le (by simp; omega)]
  refine List.mem_map.mpr
    ⟨("_id", Val.oid (natToHex24 db.nextId)) :: trackToDoc p, ?_, ?_⟩
  · exact List.mem_append_right _ (List.mem_singleton_self _)
  · exact serialize_stored_track p _

/-- A fixed valid creation payload used by the C1 witness. -/
def pay0 : CreateTrack := ⟨"X", "Y", none, none, "http://a/b.mp3", none⟩

/-- Witness for C1: the empty state and a concrete valid payload. -/
theorem create_track_fresh_roundtrip_witness :
    (create_track (some db0) pay0).1 =
        .ok (some (trackToDoc pay0 ++ [("id", Val.str (natToHex24 0))])) ∧
      natToHex24 0 ∉ usedIds db0 ∧
      trackToDoc pay0 ++ [("id", Val.str (natToHex24 0))] ∈
        list_tracks ⟨[("_id", Val.oid (natToHex24 0)) :: trackToDoc pay0], [], 1⟩
          50 := by
  obtain ⟨h1, h2, h3⟩ := create_track_fresh_roundtrip db0 pay0 50
    ⟨by norm_num [db0], by simp [usedIds, db0]⟩ (by simp [db0])
  exact ⟨h1, h2, h3 _ rfl⟩

end Music
